import Mathlib

/-! Formal model of the power-monitoring, shutdown-sweep and reminder logic of
a Telegram server-management bot (source file `src/bot.py`).  Pure Lean
functions mirror the Python control flow; external effects (the battery
reader, SSH connect and command execution, the local filesystem) are passed
in as explicit outcome values, so each branch of the Python code corresponds
to a branch of the matching Lean definition. -/

namespace ServerBot

/-- Kind of a power transition event emitted by the monitor loop
(`PowerMonitor._monitor_power`, bot.py lines 275-305). -/
inductive PowerEventKind where
  | lost
  | restored
  deriving DecidableEq, Repr

/-- Outcome of one attempt to read the battery status
(`PowerMonitor._get_charging_status`, bot.py lines 241-257): the Termux API
call succeeds and reports a `plugged` field, or it fails and the sysfs
fallback reports a status string, or everything raises an exception. -/
inductive ReadOutcome where
  | termuxOk (plugged : String)
  | sysfsOk (status : String)
  | readError
  deriving DecidableEq, Repr

/-- Translation of `PowerMonitor._get_charging_status` (bot.py 241-257):
a zero exit of `termux-battery-status` gives `plugged != UNPLUGGED`; the
sysfs fallback gives `status == Charging`; on any exception the reader fails
open and reports `True` (on power). -/
def get_charging_status : ReadOutcome → Bool
  | ReadOutcome.termuxOk plugged => !(plugged == "UNPLUGGED")
  | ReadOutcome.sysfsOk status => status == "Charging"
  | ReadOutcome.readError => true

/-- One comparison of a freshly read charging flag against the held
`is_charging` flag (bot.py 281-298): `lost` is emitted when power was on and
the new reading is off, `restored` in the opposite case, nothing otherwise. -/
def monitorStep (held current : Bool) : Option PowerEventKind :=
  if held && !current then some PowerEventKind.lost
  else if !held && current then some PowerEventKind.restored
  else none

/-- Events emitted by the monitor loop (`_monitor_power`, bot.py 275-305) on
a list of successive charging readings, starting from held state `held`; the
held state is assigned the fresh reading at the end of every iteration
(bot.py line 300). -/
def monitor_power_events (held : Bool) : List Bool → List PowerEventKind
  | [] => []
  | r :: rs =>
      match monitorStep held r with
      | some e => e :: monitor_power_events r rs
      | none => monitor_power_events r rs

/-- Fields of `PowerMonitor` read or written by one monitor-loop
iteration. -/
structure MonState where
  is_monitoring : Bool
  is_charging : Bool
  deriving DecidableEq, Repr

/-- Outcome of one iteration of the monitor loop body: either the body runs
to completion on a battery reading, or some call in the body raises. -/
inductive LoopOutcome where
  | ok (read : ReadOutcome)
  | bodyError
  deriving DecidableEq, Repr

/-- One iteration of the `while self.is_monitoring` loop (bot.py 277-305):
a completed body stores the fresh reading and sleeps 2 seconds; a body that
raises is caught, leaves the state alone and sleeps 5 seconds.  Returns the
new state and the sleep length in seconds. -/
def monitor_power_iter (st : MonState) : LoopOutcome → MonState × Nat
  | LoopOutcome.ok r => ({ st with is_charging := get_charging_status r }, 2)
  | LoopOutcome.bodyError => (st, 5)

/-- Initial held charging state, sampled once in `PowerMonitor.__init__`
(bot.py line 236). -/
def powerMonitorInit (r : ReadOutcome) : Bool := get_charging_status r

/-- The reminder loop `PowerMonitor._notification_cycle` (bot.py 322-331) in
discrete time: `charging` and `monitoring` give the shared flags as read at a
given second, `lossTime` is `last_power_loss_time`, `fuel` bounds the number
of iterations simulated, and the last argument is the current time.  Each
iteration checks the loop guard, sleeps 300 seconds, re-checks the charging
flag and, only if still discharging, emits a tick carrying the check time
and the elapsed seconds since the loss. -/
def notification_cycle (charging monitoring : Nat → Bool) (lossTime : Nat) :
    Nat → Nat → List (Nat × Nat)
  | 0, _ => []
  | fuel + 1, t =>
      if !(charging t) && monitoring t then
        if !(charging (t + 300)) then
          (t + 300, t + 300 - lossTime) ::
            notification_cycle charging monitoring lossTime fuel (t + 300)
        else
          notification_cycle charging monitoring lossTime fuel (t + 300)
      else []

/-- A row of the `servers` table as handed to `SSHManager`
(`DatabaseManager.get_servers`, bot.py 113-138); `none` plays the role of
SQL NULL / Python `None`. -/
structure Server where
  name : String
  ip_address : String
  port : Nat
  username : String
  password_encrypted : Option String
  key_path : Option String
  shutdown_command : String
  deriving DecidableEq, Repr

/-- Python truthiness of an optional string: `None` and `""` are falsy. -/
def truthy : Option String → Bool
  | none => false
  | some s => !(s == "")

/-- Authentication material chosen for one connection attempt. -/
inductive AuthChoice where
  | password
  | keyfile (path : String)
  | unavailable
  deriving DecidableEq, Repr

/-- Credential resolution of `SSHManager.test_connection` (bot.py 353-359):
a truthy encrypted password wins; otherwise a truthy key path that exists on
the local filesystem (`fs`) is used; otherwise nothing is available. -/
def resolveAuthTest (fs : String → Bool) (server : Server) : AuthChoice :=
  if truthy server.password_encrypted then AuthChoice.password
  else
    match server.key_path with
    | some p => if !(p == "") && fs p then AuthChoice.keyfile p else AuthChoice.unavailable
    | none => AuthChoice.unavailable

/-- Credential resolution of `SSHManager.shutdown_server` (bot.py 385-391),
transliterated separately from its own lines; the source repeats the
if/elif/else of `test_connection` verbatim. -/
def resolveAuthShutdown (fs : String → Bool) (server : Server) : AuthChoice :=
  if truthy server.password_encrypted then AuthChoice.password
  else
    match server.key_path with
    | some p => if !(p == "") && fs p then AuthChoice.keyfile p else AuthChoice.unavailable
    | none => AuthChoice.unavailable

/-- The `auth_kwargs` dictionary built by either SSH operation. -/
structure AuthKwargs where
  hostname : String
  port : Nat
  username : String
  timeout : Nat
  auth : AuthChoice
  deriving DecidableEq, Repr

/-- The `auth_kwargs` of `test_connection` (bot.py 346-359); the connect
timeout is the literal 10 of line 350. -/
def test_connection_kwargs (fs : String → Bool) (server : Server) : AuthKwargs :=
  { hostname := server.ip_address, port := server.port, username := server.username,
    timeout := 10, auth := resolveAuthTest fs server }

/-- The `auth_kwargs` of `shutdown_server` (bot.py 378-391); the connect
timeout is the literal 10 of line 382. -/
def shutdown_server_kwargs (fs : String → Bool) (server : Server) : AuthKwargs :=
  { hostname := server.ip_address, port := server.port, username := server.username,
    timeout := 10, auth := resolveAuthShutdown fs server }

/-- Observable side effects of the SSH operations that the specification
talks about. -/
inductive Action where
  | attemptStart (i : Nat)
  | connect
  | execDone (status : Int)
  | sleep (secs : Nat)
  deriving DecidableEq, Repr

/-- Result of one whole connection attempt (decrypt, connect, exec, wait)
inside `shutdown_server`: either some call raised an exception carrying
`str(e)`, or the shutdown command ran and reported an exit status together
with the decoded stderr text. -/
inductive AttemptOutcome where
  | raised (detail : String)
  | exited (status : Int) (stderrOut : String)
  deriving DecidableEq, Repr

/-- Result of the single connect performed by `test_connection`. -/
inductive ConnOutcome where
  | ok
  | raised (detail : String)
  deriving DecidableEq, Repr

/-- `SSHManager.test_connection` (bot.py 339-366): resolve credentials, and
either fail with the fixed message, or connect once and report the outcome.
No command is executed and no retry is made. -/
def test_connection (fs : String → Bool) (out : ConnOutcome) (server : Server) :
    (Bool × String) × List Action :=
  match resolveAuthTest fs server with
  | AuthChoice.unavailable =>
      ((false, "No authentication method available"), [Action.attemptStart 0])
  | _ =>
      match out with
      | ConnOutcome.ok =>
          ((true, "Connection successful"), [Action.attemptStart 0, Action.connect])
      | ConnOutcome.raised d => ((false, d), [Action.attemptStart 0])

/-- The literal `max_retries = 3` of `shutdown_server` (bot.py line 370). -/
def max_retries : Nat := 3

/-- The retry loop of `SSHManager.shutdown_server` (bot.py 372-415).
`remaining` counts the loop iterations still allowed, `attempt` is the
Python loop index, and `env` gives the outcome of each numbered attempt.
An exhausted loop falls through to the trailing `return` of line 415.  On an
exception the code sleeps 2 seconds before the next attempt (line 413); on a
non-zero exit status it proceeds to the next attempt at once. -/
def shutdownLoop (fs : String → Bool) (env : Nat → AttemptOutcome) (server : Server)
    (maxRetries : Nat) : Nat → Nat → (Bool × String) × List Action
  | 0, _ => ((false, "Max retries exceeded"), [])
  | remaining + 1, attempt =>
      match resolveAuthShutdown fs server with
      | AuthChoice.unavailable =>
          ((false, "No authentication method available"), [Action.attemptStart attempt])
      | _ =>
          match env attempt with
          | AttemptOutcome.raised detail =>
              if attempt == maxRetries - 1 then
                ((false, "Connection failed after " ++
                    (toString maxRetries ++ (" attempts: " ++ detail))),
                 [Action.attemptStart attempt])
              else
                ((shutdownLoop fs env server maxRetries remaining (attempt + 1)).1,
                 Action.attemptStart attempt :: Action.sleep 2 ::
                   (shutdownLoop fs env server maxRetries remaining (attempt + 1)).2)
          | AttemptOutcome.exited status stderrOut =>
              if status == 0 then
                ((true, "Shutdown successful (attempt " ++
                    (toString (attempt + 1) ++ ")")),
                 [Action.attemptStart attempt, Action.connect, Action.execDone status])
              else if attempt == maxRetries - 1 then
                ((false, "Shutdown failed: " ++ stderrOut),
                 [Action.attemptStart attempt, Action.connect, Action.execDone status])
              else
                ((shutdownLoop fs env server maxRetries remaining (attempt + 1)).1,
                 Action.attemptStart attempt :: Action.connect :: Action.execDone status ::
                   (shutdownLoop fs env server maxRetries remaining (attempt + 1)).2)

/-- `SSHManager.shutdown_server` (bot.py 368-415): up to `max_retries`
attempts, starting at loop index 0. -/
def shutdown_server (fs : String → Bool) (env : Nat → AttemptOutcome) (server : Server) :
    (Bool × String) × List Action :=
  shutdownLoop fs env server max_retries max_retries 0

/-- The per-server result line appended by `handle_power_loss`
(bot.py 630-635). -/
def shutdownResultText (fs : String → Bool) (env : Nat → AttemptOutcome)
    (server : Server) : String :=
  (if (shutdown_server fs env server).1.1 then "✅" else "❌") ++
    (" " ++ (server.name ++ (": " ++ (shutdown_server fs env server).1.2)))

/-- The per-target loop of `ServerBot.handle_power_loss` (bot.py 628-643):
one `shutdown_server` call per registered server, result lines collected in
registry order; `env i` is the attempt environment of server number `i`. -/
def handle_power_loss_sweep (fs : String → Bool) (env : Nat → Nat → AttemptOutcome) :
    List Server → Nat → List String
  | [], _ => []
  | server :: rest, i =>
      shutdownResultText fs (env i) server :: handle_power_loss_sweep fs env rest (i + 1)

/-- Placeholder row used only as the default value of `List.getD`. -/
def defServer : Server :=
  { name := "", ip_address := "", port := 0, username := "",
    password_encrypted := none, key_path := none, shutdown_command := "" }

/-- Filesystem on which no path exists. -/
def fsNone : String → Bool := fun _ => false

/-- Filesystem on which every path exists. -/
def fsAll : String → Bool := fun _ => true

/-- Sample server configured with an encrypted password. -/
def srvPw : Server :=
  { name := "alpha", ip_address := "10.0.0.1", port := 22, username := "root",
    password_encrypted := some "CIPHER", key_path := none,
    shutdown_command := "sudo shutdown -h now" }

/-- Sample server configured with no credential at all. -/
def srvNoAuth : Server :=
  { name := "beta", ip_address := "10.0.0.2", port := 22, username := "root",
    password_encrypted := none, key_path := none,
    shutdown_command := "sudo shutdown -h now" }

/-- Sample server whose only credential is a key file path. -/
def srvKeyOnly : Server :=
  { name := "gamma", ip_address := "10.0.0.3", port := 22, username := "root",
    password_encrypted := none, key_path := some "/home/user/.ssh/id_rsa",
    shutdown_command := "sudo shutdown -h now" }

/-- Attempt environment where every attempt succeeds with exit status 0. -/
def envOk : Nat → AttemptOutcome := fun _ => AttemptOutcome.exited 0 ""

/-- Attempt environment where every attempt exits with status 1. -/
def envFailExit : Nat → AttemptOutcome := fun _ => AttemptOutcome.exited 1 "boom"

/-- Attempt environment where every attempt raises an exception. -/
def envRaise : Nat → AttemptOutcome := fun _ => AttemptOutcome.raised "timed out"



/-- Helper: the character data of an appended string. -/
theorem append_data (a b : String) : (a ++ b).data = a.data ++ b.data := by
  cases a; cases b; rfl

/-- Helper: two strings whose first characters differ are different, even
after appending an arbitrary tail to the first. -/
theorem lit_append_ne (a b t : String) (ca ct : Char) (la lt : List Char)
    (ha : a.data = ca :: la) (ht : t.data = ct :: lt) (hne : ca ≠ ct) :
    a ++ b ≠ t := by
  intro h
  have h2 : (a ++ b).data = t.data := by rw [h]
  rw [append_data, ha, ht, List.cons_append] at h2
  injection h2 with h3 _
  exact hne h3

/-- Helper: the trailing message of the exhausted loop is never returned,
because every final-attempt path returns inside the loop. -/
theorem shutdownLoop_msg_ne (fs : String → Bool) (env : Nat → AttemptOutcome) (server : Server) :
    ∀ remaining attempt, attempt + remaining = max_retries → 0 < remaining →
      (shutdownLoop fs env server max_retries remaining attempt).1.2 ≠ "Max retries exceeded" := by
  intro remaining
  induction remaining with
  | zero => intro attempt _ h0; exact absurd h0 (by decide)
  | succ r ih =>
      intro attempt hsum _
      simp only [shutdownLoop]
      rcases hauth : resolveAuthShutdown fs server with _ | p | _ <;> simp only [hauth]
      · rcases henv : env attempt with detail | ⟨status, serr⟩ <;> simp only [henv]
        · by_cases hfin : (attempt == max_retries - 1) = true
          · simp only [hfin, if_true]
            exact lit_append_ne _ _ _ 'C' 'M' _ _ rfl rfl (by decide)
          · simp only [hfin, Bool.false_eq_true, if_false]
            have hne : attempt ≠ max_retries - 1 := by
              intro he; exact hfin (by simp [he])
            have h3 : max_retries = 3 := rfl
            rw [h3] at hsum hne
            exact ih (attempt + 1) (by omega) (by omega)
        · by_cases hst : (status == 0) = true
          · simp only [hst, if_true]
            exact lit_append_ne _ _ _ 'S' 'M' _ _ rfl rfl (by decide)
          · simp only [hst, Bool.false_eq_true, if_false]
            by_cases hfin : (attempt == max_retries - 1) = true
            · simp only [hfin, if_true]
              exact lit_append_ne _ _ _ 'S' 'M' _ _ rfl rfl (by decide)
            · simp only [hfin, Bool.false_eq_true, if_false]
              have hne : attempt ≠ max_retries - 1 := by
                intro he; exact hfin (by simp [he])
              have h3 : max_retries = 3 := rfl
              rw [h3] at hsum hne
              exact ih (attempt + 1) (by omega) (by omega)
      · rcases henv : env attempt with detail | ⟨status, serr⟩ <;> simp only [henv]
        · by_cases hfin : (attempt == max_retries - 1) = true
          · simp only [hfin, if_true]
            exact lit_append_ne _ _ _ 'C' 'M' _ _ rfl rfl (by decide)
          · simp only [hfin, Bool.false_eq_true, if_false]
            have hne : attempt ≠ max_retries - 1 := by
              intro he; exact hfin (by simp [he])
            have h3 : max_retries = 3 := rfl
            rw [h3] at hsum hne
            exact ih (attempt + 1) (by omega) (by omega)
        · by_cases hst : (status == 0) = true
          · simp only [hst, if_true]
            exact lit_append_ne _ _ _ 'S' 'M' _ _ rfl rfl (by decide)
          · simp only [hst, Bool.false_eq_true, if_false]
            by_cases hfin : (attempt == max_retries - 1) = true
            · simp only [hfin, if_true]
              exact lit_append_ne _ _ _ 'S' 'M' _ _ rfl rfl (by decide)
            · simp only [hfin, Bool.false_eq_true, if_false]
              have hne : attempt ≠ max_retries - 1 := by
                intro he; exact hfin (by simp [he])
              have h3 : max_retries = 3 := rfl
              rw [h3] at hsum hne
              exact ih (attempt + 1) (by omega) (by omega)
      · decide

/-- Helper: the first event the monitor loop emits is determined by the held
state it starts from. -/
theorem monitor_events_head (rs : List Bool) :
    ∀ held e, (monitor_power_events held rs).head? = some e →
      (held = true ∧ e = PowerEventKind.lost) ∨
        (held = false ∧ e = PowerEventKind.restored) := by
  induction rs with
  | nil => intro held e h; simp [monitor_power_events] at h
  | cons r rs ih =>
      intro held e h
      cases held <;> cases r <;>
        simp only [monitor_power_events, monitorStep, Bool.not_true, Bool.not_false,
          Bool.and_true, Bool.and_false, Bool.true_and, Bool.false_and,
          Bool.and_self, if_true, if_false, Bool.false_eq_true] at h
      · exact ih false e h
      · rw [List.head?_cons] at h
        right
        exact ⟨rfl, (Option.some_inj.mp h).symm⟩
      · rw [List.head?_cons] at h
        left
        exact ⟨rfl, (Option.some_inj.mp h).symm⟩
      · exact ih true e h

/-- Helper: the monitor loop never emits two equal events in a row. -/
theorem monitor_events_chain (rs : List Bool) :
    ∀ held, List.Chain' (fun a b => a ≠ b) (monitor_power_events held rs) := by
  induction rs with
  | nil => intro held; simp [monitor_power_events]
  | cons r rs ih =>
      intro held
      cases held <;> cases r <;>
        simp only [monitor_power_events, monitorStep, Bool.not_true, Bool.not_false,
          Bool.and_true, Bool.and_false, Bool.true_and, Bool.false_and,
          Bool.and_self, if_true, if_false, Bool.false_eq_true]
      · exact ih false
      · rw [List.chain'_cons']
        refine ⟨?_, ih true⟩
        intro y hy
        rw [Option.mem_def] at hy
        rcases monitor_events_head rs true y hy with ⟨_, hy2⟩ | ⟨hfalse, _⟩
        · rw [hy2]; decide
        · exact absurd hfalse (by decide)
      · rw [List.chain'_cons']
        refine ⟨?_, ih false⟩
        intro y hy
        rw [Option.mem_def] at hy
        rcases monitor_events_head rs false y hy with ⟨hfalse, _⟩ | ⟨_, hy2⟩
        · exact absurd hfalse (by decide)
        · rw [hy2]; decide
      · exact ih true

/-- Helper: the reminder loop exits at once when the device is charging at
loop-guard time. -/
theorem ncycle_nil_of_charging (charging monitoring : Nat → Bool) (lossTime fuel t : Nat)
    (h : charging t = true) :
    notification_cycle charging monitoring lossTime fuel t = [] := by
  cases fuel with
  | zero => rfl
  | succ f => simp [notification_cycle, h]

/-- Helper: every tick the reminder loop emits was emitted at a check time at
which the device was still discharging, and carries the elapsed time since
the recorded power loss. -/
theorem ncycle_mem (charging monitoring : Nat → Bool) (lossTime : Nat) :
    ∀ fuel t p, p ∈ notification_cycle charging monitoring lossTime fuel t →
      charging p.1 = false ∧ p.2 = p.1 - lossTime := by
  intro fuel
  induction fuel with
  | zero => intro t p hp; simp [notification_cycle] at hp
  | succ f ih =>
      intro t p hp
      simp only [notification_cycle] at hp
      by_cases h1 : (!(charging t) && monitoring t) = true
      · rw [if_pos h1] at hp
        by_cases h2 : (!(charging (t + 300))) = true
        · rw [if_pos h2] at hp
          rcases List.mem_cons.mp hp with heq | hmem
          · subst heq
            exact ⟨by simpa using h2, rfl⟩
          · exact ih (t + 300) p hmem
        · rw [if_neg h2] at hp
          exact ih (t + 300) p hp
      · rw [if_neg h1] at hp
        simp at hp

/-- Helper: length of the sweep report. -/
theorem sweep_length (fs : String → Bool) (env : Nat → Nat → AttemptOutcome) :
    ∀ (servers : List Server) (k : Nat),
      (handle_power_loss_sweep fs env servers k).length = servers.length := by
  intro servers
  induction servers with
  | nil => intro k; rfl
  | cons s rest ih => intro k; simp [handle_power_loss_sweep, ih]

/-- Helper: the i-th line of the sweep report is the shutdown result of the
i-th server, with the attempt environment numbered from the loop offset. -/
theorem sweep_getD (fs : String → Bool) (env : Nat → Nat → AttemptOutcome) :
    ∀ (servers : List Server) (k i : Nat), i < servers.length →
      (handle_power_loss_sweep fs env servers k).getD i ""
        = shutdownResultText fs (env (k + i)) (servers.getD i defServer) := by
  intro servers
  induction servers with
  | nil => intro k i h; simp at h
  | cons s rest ih =>
      intro k i h
      cases i with
      | zero => simp [handle_power_loss_sweep]
      | succ j =>
          have hj : j < rest.length := by
            have := h
            simp only [List.length_cons] at this
            omega
          have harith : k + (j + 1) = (k + 1) + j := by omega
          simp only [handle_power_loss_sweep, List.getD_cons_succ]
          rw [harith]
          exact ih (k + 1) j hj

/-- Helper: both SSH operations resolve credentials identically. -/
theorem resolve_auth_same (fs : String → Bool) (server : Server) :
    resolveAuthTest fs server = resolveAuthShutdown fs server := rfl

/-- C1: one sweep of `handle_power_loss` over N registered servers produces
exactly N finalized result lines, one per server, in registry snapshot
order; the sweep function is total, so no exception reaches the caller even
when every target fails. -/
theorem claim1_sweep_report (fs : String → Bool) (env : Nat → Nat → AttemptOutcome)
    (servers : List Server) :
    (handle_power_loss_sweep fs env servers 0).length = servers.length ∧
    ∀ i, i < servers.length →
      (handle_power_loss_sweep fs env servers 0).getD i ""
        = shutdownResultText fs (env i) (servers.getD i defServer) := by
  refine ⟨sweep_length fs env servers 0, fun i hi => ?_⟩
  simpa using sweep_getD fs env servers 0 i hi

/-- Witness for C1 at a two-server registry. -/
theorem claim1_sweep_report_check :
    (handle_power_loss_sweep fsNone (fun _ => envFailExit) [srvNoAuth, srvPw] 0).length = 2 ∧
    (handle_power_loss_sweep fsNone (fun _ => envFailExit) [srvNoAuth, srvPw] 0).getD 1 ""
      = shutdownResultText fsNone envFailExit srvPw := by
  have h := claim1_sweep_report fsNone (fun _ => envFailExit) [srvNoAuth, srvPw]
  exact ⟨h.1, h.2 1 (by decide)⟩

/-- C2: a server whose credentials resolve to nothing usable is finalized as
a failure with the fixed message after exactly one loop iteration: the
result is independent of the attempt environment, the trace holds a single
attempt marker, no connect and no sleep. -/
theorem claim2_auth_unavailable_zero_retries (fs : String → Bool) (env : Nat → AttemptOutcome)
    (server : Server) (h : resolveAuthShutdown fs server = AuthChoice.unavailable) :
    shutdown_server fs env server
      = ((false, "No authentication method available"), [Action.attemptStart 0]) := by
  show shutdownLoop fs env server max_retries (2 + 1) 0 = _
  simp only [shutdownLoop, h]

/-- Witness for C2 on a server with neither password nor key. -/
theorem claim2_auth_unavailable_zero_retries_check :
    resolveAuthShutdown fsNone srvNoAuth = AuthChoice.unavailable ∧
    shutdown_server fsNone envRaise srvNoAuth
      = ((false, "No authentication method available"), [Action.attemptStart 0]) :=
  ⟨by decide, claim2_auth_unavailable_zero_retries fsNone envRaise srvNoAuth (by decide)⟩

/-- Counterexample to C3: with a usable password and every attempt exiting
with status 1, all three attempts fail, yet the trace holds no sleep at all:
a non-zero exit status is retried with no 2-second delay, contrary to the
claim that every kind of failed attempt is followed by the delay. -/
theorem claim3_no_delay_after_nonzero_exit :
    shutdown_server fsNone envFailExit srvPw
      = ((false, "Shutdown failed: boom"),
         [Action.attemptStart 0, Action.connect, Action.execDone 1,
          Action.attemptStart 1, Action.connect, Action.execDone 1,
          Action.attemptStart 2, Action.connect, Action.execDone 1]) ∧
    Action.sleep 2 ∉ (shutdown_server fsNone envFailExit srvPw).2 := by
  constructor
  · decide
  · decide

/-- C3 as amended: an attempt that raises (connection error, auth rejection,
execution timeout, decrypt failure) is followed by the fixed 2-second delay
before the next attempt unless it was the final allowed attempt, while an
attempt failing with a non-zero exit status proceeds to the next attempt at
once with no delay; either failure on the final allowed attempt finalizes
the target as a failure carrying the last error detail. -/
theorem claim3_amended_retry_delays (fs : String → Bool) (env : Nat → AttemptOutcome)
    (server : Server) (hauth : resolveAuthShutdown fs server ≠ AuthChoice.unavailable) :
    (∀ remaining attempt detail, env attempt = AttemptOutcome.raised detail →
        (attempt == max_retries - 1) = false →
        (shutdownLoop fs env server max_retries (remaining + 1) attempt).2
          = Action.attemptStart attempt :: Action.sleep 2 ::
            (shutdownLoop fs env server max_retries remaining (attempt + 1)).2) ∧
    (∀ remaining attempt status stderrOut,
        env attempt = AttemptOutcome.exited status stderrOut →
        (status == 0) = false → (attempt == max_retries - 1) = false →
        (shutdownLoop fs env server max_retries (remaining + 1) attempt).2
          = Action.attemptStart attempt :: Action.connect :: Action.execDone status ::
            (shutdownLoop fs env server max_retries remaining (attempt + 1)).2) ∧
    (∀ detail, env (max_retries - 1) = AttemptOutcome.raised detail →
        (shutdownLoop fs env server max_retries 1 (max_retries - 1)).1
          = (false, "Connection failed after " ++
              (toString max_retries ++ (" attempts: " ++ detail)))) ∧
    (∀ status stderrOut,
        env (max_retries - 1) = AttemptOutcome.exited status stderrOut →
        (status == 0) = false →
        (shutdownLoop fs env server max_retries 1 (max_retries - 1)).1
          = (false, "Shutdown failed: " ++ stderrOut)) := by
  refine ⟨?_, ?_, ?_, ?_⟩
  · intro remaining attempt detail he hfin
    rcases hr : resolveAuthShutdown fs server with _ | p | _
    · simp only [shutdownLoop, hr, he, hfin, Bool.false_eq_true, if_false]
    · simp only [shutdownLoop, hr, he, hfin, Bool.false_eq_true, if_false]
    · exact absurd hr hauth
  · intro remaining attempt status stderrOut he hst hfin
    rcases hr : resolveAuthShutdown fs server with _ | p | _
    · simp only [shutdownLoop, hr, he, hst, hfin, Bool.false_eq_true, if_false]
    · simp only [shutdownLoop, hr, he, hst, hfin, Bool.false_eq_true, if_false]
    · exact absurd hr hauth
  · intro detail he
    rcases hr : resolveAuthShutdown fs server with _ | p | _
    · simp only [shutdownLoop, hr, he, beq_self_eq_true, if_true]
    · simp only [shutdownLoop, hr, he, beq_self_eq_true, if_true]
    · exact absurd hr hauth
  · intro status stderrOut he hst
    rcases hr : resolveAuthShutdown fs server with _ | p | _
    · simp only [shutdownLoop, hr, he, hst, Bool.false_eq_true, if_false,
        beq_self_eq_true, if_true]
    · simp only [shutdownLoop, hr, he, hst, Bool.false_eq_true, if_false,
        beq_self_eq_true, if_true]
    · exact absurd hr hauth

/-- Witness for the amended C3 on concrete runs. -/
theorem claim3_amended_retry_delays_check :
    (shutdownLoop fsNone envRaise srvPw max_retries (1 + 1) 0).2
      = Action.attemptStart 0 :: Action.sleep 2 ::
        (shutdownLoop fsNone envRaise srvPw max_retries 1 1).2 ∧
    (shutdownLoop fsNone envFailExit srvPw max_retries (1 + 1) 0).2
      = Action.attemptStart 0 :: Action.connect :: Action.execDone 1 ::
        (shutdownLoop fsNone envFailExit srvPw max_retries 1 1).2 ∧
    (shutdownLoop fsNone envRaise srvPw max_retries 1 (max_retries - 1)).1
      = (false, "Connection failed after " ++
          (toString max_retries ++ (" attempts: " ++ "timed out"))) ∧
    (shutdownLoop fsNone envFailExit srvPw max_retries 1 (max_retries - 1)).1
      = (false, "Shutdown failed: " ++ "boom") := by
  have h := claim3_amended_retry_delays fsNone envRaise srvPw (by decide)
  have h2 := claim3_amended_retry_delays fsNone envFailExit srvPw (by decide)
  exact ⟨h.1 1 0 "timed out" rfl (by decide),
         h2.2.1 1 0 1 "boom" rfl (by decide) (by decide),
         h.2.2.1 "timed out" rfl,
         h2.2.2.2 1 "boom" rfl (by decide)⟩

/-- C4: the monitor loop emits an event only when the fresh reading differs
from the held state, and for every reading sequence and every starting held
state the emitted event sequence strictly alternates, never holding two
equal events in a row. -/
theorem claim4_power_events_alternate :
    (∀ held r, r = held → monitorStep held r = none) ∧
    (∀ held rs, List.Chain' (fun a b => a ≠ b) (monitor_power_events held rs)) := by
  constructor
  · intro held r h
    cases held <;> simp [h, monitorStep]
  · intro held rs
    exact monitor_events_chain rs held

/-- Witness for C4 on a concrete reading sequence. -/
theorem claim4_power_events_alternate_check :
    monitorStep true true = none ∧
    List.Chain' (fun a b => a ≠ b) (monitor_power_events true [false, true, false]) :=
  ⟨claim4_power_events_alternate.1 true true rfl,
   claim4_power_events_alternate.2 true [false, true, false]⟩

/-- C5: a failed battery read reports charging (fail-open), so a read
failure alone can never yield a `lost` event; a loop body that completes
sleeps the normal 2 seconds while a loop body that raises is caught,
preserves the state and sleeps the 5-second backoff; no outcome clears the
`is_monitoring` flag, so a single failure never terminates the loop. -/
theorem claim5_fail_open_backoff :
    get_charging_status ReadOutcome.readError = true ∧
    (∀ held, monitorStep held (get_charging_status ReadOutcome.readError)
        ≠ some PowerEventKind.lost) ∧
    (∀ st r, (monitor_power_iter st (LoopOutcome.ok r)).2 = 2) ∧
    (∀ st, monitor_power_iter st LoopOutcome.bodyError = (st, 5)) ∧
    (∀ st o, (monitor_power_iter st o).1.is_monitoring = st.is_monitoring) := by
  refine ⟨rfl, ?_, fun st r => rfl, fun st => rfl, ?_⟩
  · intro held
    cases held <;> simp [monitorStep, get_charging_status]
  · intro st o
    cases o <;> rfl

/-- Witness for C5 at concrete states. -/
theorem claim5_fail_open_backoff_check :
    monitorStep true (get_charging_status ReadOutcome.readError) ≠ some PowerEventKind.lost ∧
    (monitor_power_iter ⟨true, true⟩ (LoopOutcome.ok ReadOutcome.readError)).2 = 2 ∧
    monitor_power_iter ⟨true, false⟩ LoopOutcome.bodyError = (⟨true, false⟩, 5) ∧
    (monitor_power_iter ⟨true, false⟩ LoopOutcome.bodyError).1.is_monitoring = true :=
  ⟨claim5_fail_open_backoff.2.1 true,
   claim5_fail_open_backoff.2.2.1 ⟨true, true⟩ ReadOutcome.readError,
   claim5_fail_open_backoff.2.2.2.1 ⟨true, false⟩,
   claim5_fail_open_backoff.2.2.2.2 ⟨true, false⟩ LoopOutcome.bodyError⟩

/-- C6: the reminder loop re-checks the charging flag after each 300-second
sleep and emits a tick only when still discharging, with elapsed time
measured from the recorded loss time; when power is restored strictly before
the first cadence interval elapses (and stays restored), zero ticks are
emitted. -/
theorem claim6_reminder_recheck (charging monitoring : Nat → Bool) (lossTime fuel : Nat) :
    (∀ restoredAt, restoredAt < lossTime + 300 →
        (∀ s, restoredAt ≤ s → charging s = true) →
        notification_cycle charging monitoring lossTime fuel lossTime = []) ∧
    (∀ t p, p ∈ notification_cycle charging monitoring lossTime fuel t →
        charging p.1 = false ∧ p.2 = p.1 - lossTime) := by
  constructor
  · intro restoredAt hlt hstay
    have hch : charging (lossTime + 300) = true := hstay _ (Nat.le_of_lt hlt)
    cases fuel with
    | zero => rfl
    | succ f =>
        have hnil := ncycle_nil_of_charging charging monitoring lossTime f (lossTime + 300) hch
        simp [notification_cycle, hch, hnil]
  · intro t p hp
    exact ncycle_mem charging monitoring lossTime fuel t p hp

/-- Witness for C6: restoration at second 100 after a loss at second 0
yields no tick, and on a never-restored timeline the first tick is emitted
at second 300 carrying elapsed time 300. -/
theorem claim6_reminder_recheck_check :
    notification_cycle (fun s => decide (100 ≤ s)) (fun _ => true) 0 2 0 = [] ∧
    ((fun _ => false) ((300 : Nat), (300 : Nat)).1 = false ∧
      ((300 : Nat), (300 : Nat)).2 = ((300 : Nat), (300 : Nat)).1 - 0) := by
  constructor
  · exact (claim6_reminder_recheck (fun s => decide (100 ≤ s)) (fun _ => true) 0 2).1
      100 (by decide) (fun s hs => decide_eq_true hs)
  · exact (claim6_reminder_recheck (fun _ => false) (fun _ => true) 0 2).2
      0 (300, 300) (by decide)

/-- Counterexample to C7: the connect timeout of `test_connection` equals
the 10 seconds of `shutdown_server`; it is not shorter. -/
theorem claim7_timeout_not_shorter :
    (test_connection_kwargs fsNone srvPw).timeout = 10 ∧
    (shutdown_server_kwargs fsNone srvPw).timeout = 10 ∧
    ¬ (test_connection_kwargs fsNone srvPw).timeout
        < (shutdown_server_kwargs fsNone srvPw).timeout := by
  exact ⟨rfl, rfl, by decide⟩

/-- C7 as amended: `test_connection` builds exactly the same connection
keyword set as `shutdown_server` — identical credential resolution rules and
the identical 10-second connect timeout — and it performs a single attempt
with no command execution and no retry delay. -/
theorem claim7_amended_same_auth_same_timeout :
    (∀ fs server, test_connection_kwargs fs server = shutdown_server_kwargs fs server) ∧
    (∀ fs out server,
        (test_connection fs out server).2.count (Action.attemptStart 0) = 1 ∧
        (∀ s, Action.execDone s ∉ (test_connection fs out server).2) ∧
        (∀ n, Action.sleep n ∉ (test_connection fs out server).2)) := by
  constructor
  · intro fs server
    simp [test_connection_kwargs, shutdown_server_kwargs, resolve_auth_same]
  · intro fs out server
    rcases hr : resolveAuthTest fs server with _ | p | _ <;>
      rcases out with _ | d <;>
      simp [test_connection, hr]

/-- Witness for the amended C7 on a concrete server. -/
theorem claim7_amended_same_auth_same_timeout_check :
    test_connection_kwargs fsNone srvPw = shutdown_server_kwargs fsNone srvPw ∧
    (test_connection fsNone ConnOutcome.ok srvPw).2.count (Action.attemptStart 0) = 1 ∧
    Action.execDone 0 ∉ (test_connection fsNone ConnOutcome.ok srvPw).2 ∧
    Action.sleep 2 ∉ (test_connection fsNone ConnOutcome.ok srvPw).2 := by
  have h := claim7_amended_same_auth_same_timeout
  exact ⟨h.1 fsNone srvPw,
         (h.2 fsNone ConnOutcome.ok srvPw).1,
         (h.2 fsNone ConnOutcome.ok srvPw).2.1 0,
         (h.2 fsNone ConnOutcome.ok srvPw).2.2 2⟩

/-- C8: `shutdown_server` is total by construction and the trailing return
of line 415 is unreachable: no run ever reports the message "Max retries
exceeded", because every final-attempt path returns inside the loop. -/
theorem claim8_shutdown_total_no_trailing_return (fs : String → Bool)
    (env : Nat → AttemptOutcome) (server : Server) :
    (shutdown_server fs env server).1.2 ≠ "Max retries exceeded" :=
  shutdownLoop_msg_ne fs env server max_retries 0 rfl (by decide)

/-- Witness for C8 on a concrete run. -/
theorem claim8_shutdown_total_no_trailing_return_check :
    (shutdown_server fsNone envOk srvPw).1.2 ≠ "Max retries exceeded" :=
  claim8_shutdown_total_no_trailing_return fsNone envOk srvPw

/-- C9: a server with no stored password whose key path does not exist on
the local filesystem fails immediately in both SSH operations with the fixed
no-authentication message, exactly as if no credential were configured. -/
theorem claim9_missing_key_no_auth (fs : String → Bool) (env : Nat → AttemptOutcome)
    (out : ConnOutcome) (server : Server) (p : String)
    (hpw : truthy server.password_encrypted = false)
    (hkey : server.key_path = some p) (hfs : fs p = false) :
    (shutdown_server fs env server).1 = (false, "No authentication method available") ∧
    (test_connection fs out server).1 = (false, "No authentication method available") := by
  have hres : resolveAuthShutdown fs server = AuthChoice.unavailable := by
    simp [resolveAuthShutdown, hpw, hkey, hfs]
  have hresT : resolveAuthTest fs server = AuthChoice.unavailable := by
    simp [resolveAuthTest, hpw, hkey, hfs]
  constructor
  · have hrun : shutdown_server fs env server
        = ((false, "No authentication method available"), [Action.attemptStart 0]) := by
      show shutdownLoop fs env server max_retries (2 + 1) 0 = _
      simp only [shutdownLoop, hres]
    rw [hrun]
  · simp [test_connection, hresT]

/-- Witness for C9 on a key-only server over an empty filesystem. -/
theorem claim9_missing_key_no_auth_check :
    truthy srvKeyOnly.password_encrypted = false ∧
    (shutdown_server fsNone envOk srvKeyOnly).1
      = (false, "No authentication method available") ∧
    (test_connection fsNone ConnOutcome.ok srvKeyOnly).1
      = (false, "No authentication method available") := by
  have h := claim9_missing_key_no_auth fsNone envOk ConnOutcome.ok srvKeyOnly
      "/home/user/.ssh/id_rsa" (by decide) rfl rfl
  exact ⟨by decide, h.1, h.2⟩

/-- C10: the held power state is initialized from a sample taken in the
constructor; when that initial sample already reads discharging, the first
event the monitor loop can ever emit is `restored`, never `lost`, so the
pre-existing outage triggers no shutdown sweep. -/
theorem claim10_start_on_battery_first_event_restored (r0 : ReadOutcome) (rs : List Bool)
    (e : PowerEventKind) (h0 : powerMonitorInit r0 = false)
    (hh : (monitor_power_events (powerMonitorInit r0) rs).head? = some e) :
    e = PowerEventKind.restored := by
  rcases monitor_events_head rs (powerMonitorInit r0) e hh with ⟨ht, _⟩ | ⟨_, he⟩
  · rw [h0] at ht
    exact Bool.noConfusion ht
  · exact he

/-- Witness for C10 on a monitor that starts discharging and later sees
power return. -/
theorem claim10_start_on_battery_first_event_restored_check :
    powerMonitorInit (ReadOutcome.sysfsOk "Discharging") = false ∧
    PowerEventKind.restored = PowerEventKind.restored :=
  ⟨by decide,
   claim10_start_on_battery_first_event_restored (ReadOutcome.sysfsOk "Discharging") [true]
     PowerEventKind.restored (by decide) (by decide)⟩

end ServerBot
